import Mathlib

/-
Formal model of the interactive detective-story game (لعبة محقق الألغاز).

The development shallowly embeds the two source modules:
  * the Gemini service module (scene generation with JSON validation and a
    fixed fallback scene, hint generation with a fixed fallback message,
    history/prompt formatting), and
  * the App component's game state machine (phase, current scene, story
    history, in-flight flags, hint state) from App.tsx.

External asynchronous calls are modelled by an explicit oracle argument
(the parsed response, or `none` for a transport/parse failure), and each
async handler is split into its synchronous prefix (up to the `await`) and
its continuation (after the `await` resolves).
-/

/-- Tone classification of a scene (`sceneType` in types.ts). -/
inductive SceneTone
  | neutral
  | positive
  | negative
  | suspense
deriving DecidableEq

/-- A story scene (`StoryScene` in types.ts); `sceneType` is optional. -/
structure StoryScene where
  scene : String
  choices : List String
  isEnding : Bool
  sceneType : Option SceneTone
deriving DecidableEq

/-- Game phase (`GameState` enum in types.ts: Start, Playing, End). -/
inductive GameState
  | Start
  | Playing
  | End
deriving DecidableEq

/-- One history entry, `{ scene: string, choice: string }` in the source
(the spec calls this a `Turn`). -/
structure Turn where
  scene : String
  choice : String
deriving DecidableEq

/-- A parsed JSON value, the result of `JSON.parse` on the service reply.
JSON numbers are modelled as integers (no claim touches numeric fields). -/
inductive JsonValue
  | null
  | bool (b : Bool)
  | num (n : Int)
  | str (s : String)
  | arr (items : List JsonValue)
  | obj (fields : List (String × JsonValue))

/-- Property lookup in a parsed JSON object (unique keys after JSON.parse). -/
def lookupField : List (String × JsonValue) → String → Option JsonValue
  | [], _ => none
  | (k, v) :: rest, key => if k == key then some v else lookupField rest key

/-- JavaScript property access `j.key`: `none` models `undefined`
(absent field, or access on a non-object value). -/
def jsGet : JsonValue → String → Option JsonValue
  | JsonValue.obj fields, key => lookupField fields key
  | _, _ => none

/-- JavaScript truthiness of a property-access result: `undefined`, `null`,
`false`, `0` and the empty string are falsy; arrays and objects are truthy. -/
def jsTruthy : Option JsonValue → Bool
  | none => false
  | some JsonValue.null => false
  | some (JsonValue.bool b) => b
  | some (JsonValue.num n) => !(n == 0)
  | some (JsonValue.str s) => !(s == "")
  | some (JsonValue.arr _) => true
  | some (JsonValue.obj _) => true

/-- The structure check in `generateStoryScene`:
`parsedJson.scene && parsedJson.choices && typeof parsedJson.isEnding !== 'undefined'`. -/
def sceneAccepted (parsedJson : JsonValue) : Bool :=
  jsTruthy (jsGet parsedJson "scene") && jsTruthy (jsGet parsedJson "choices")
    && (jsGet parsedJson "isEnding").isSome

/-- The fixed fallback story scene returned by `generateStoryScene` on any
error (transport, parse, or structure-check failure). -/
def fallbackScene : StoryScene :=
  { scene := "حدث خطأ غير متوقع في سير الأحداث. يبدو أن هناك قوة خارجية تتلاعب بملف القضية. هل تريد بدء تحقيق جديد؟",
    choices := ["ابدأ من جديد"],
    isEnding := true,
    sceneType := some SceneTone.negative }

/-- JavaScript `Array.prototype.join(sep)` on a list of strings. -/
def joinSep (sep : String) : List String → String
  | [] => ""
  | [x] => x
  | x :: y :: rest => x ++ sep ++ joinSep sep (y :: rest)

/-- Serialization of one history turn inside `formatStoryHistory`
(`index` is the 0-based array index; the template shows `index + 1`). -/
def serializeTurn (index : Nat) (turn : Turn) : String :=
  "المشهد " ++ toString (index + 1) ++ ": " ++ turn.scene
    ++ "\nالقرار المتخذ: " ++ turn.choice

/-- JavaScript `Array.prototype.map` with the element index, as used in
`formatStoryHistory` (`history.map((turn, index) => ...)`). -/
def mapWithIndex (f : Nat → Turn → String) : Nat → List Turn → List String
  | _, [] => []
  | i, t :: ts => f i t :: mapWithIndex f (i + 1) ts

/-- The source's `formatStoryHistory`. -/
def formatStoryHistory (history : List Turn) : String :=
  if history.length == 0 then "لا يوجد تاريخ حتى الآن."
  else joinSep "\n\n" (mapWithIndex serializeTurn 0 history)

/-- The opening-scene prompt (the `isFirstScene` branch in `generateStoryScene`). -/
def openingPrompt : String :=
  "أنت كاتب قصص بوليسية تفاعلية. ابدأ قصة قصيرة وغامضة باللغة العربية على طراز المحقق كونان. يجب أن تضع اللاعب في موقف يتطلب منه اتخاذ قرار. قدم وصفاً للمشهد، ثم قدم 3 خيارات مختلفة يمكن للاعب اتخاذها. يجب أن تكون القصة مشوقة. لا تنهِ القصة في هذه المرحلة."

/-- Continuation-prompt text before the embedded history transcript. -/
def contBefore : String :=
  "أنت كاتب قصص بوليسية تفاعلية. هذه هي أحداث القصة حتى الآن:\n        "

/-- Continuation-prompt text after the embedded history transcript. -/
def contAfter : String :=
  "\n        \n        بناءً على القرار الأخير، أكمل القصة بجزء جديد ومثير باللغة العربية. صف ما يحدث بعد ذلك، ثم قدم 2-4 خيارات جديدة للاعب. قد يؤدي أحد الخيارات إلى نهاية القصة. إذا كان هذا هو المشهد الأخير، فضع علامة 'isEnding' على 'true'. قم بتصنيف المشهد الجديد كـ 'neutral', 'positive', 'negative', أو 'suspense'."

/-- The prompt sent by `generateStoryScene`: the opening prompt when the
history is empty (`isFirstScene`), else the continuation template with the
history transcript embedded. -/
def scenePrompt (history : List Turn) : String :=
  if history.length == 0 then openingPrompt
  else contBefore ++ formatStoryHistory history ++ contAfter

/-- Result of one `generateStoryScene` call: either the parsed JSON value
returned unchanged (the source's unchecked `parsedJson as StoryScene` cast),
or the fixed fallback scene from the catch branch. -/
inductive SceneResult
  | accepted (parsedJson : JsonValue)
  | fallback (s : StoryScene)

/-- The source's `generateStoryScene`, with the awaited external call
replaced by its outcome `resp`: `none` models any transport or JSON-parse
failure (a rejection or throw inside the `try` block), `some j` the parsed
response to `scenePrompt history`. A response that fails the structure
check throws inside the `try`, so it is caught by the same catch branch. -/
def generateStoryScene (history : List Turn) (resp : Option JsonValue) : SceneResult :=
  match resp with
  | none => SceneResult.fallback fallbackScene
  | some parsedJson =>
      if sceneAccepted parsedJson then SceneResult.accepted parsedJson
      else SceneResult.fallback fallbackScene

/-- The fixed message `generateHint` returns from its catch branch. -/
def hintFallbackMsg : String :=
  "لا يمكن استخلاص أي تلميحات في هذا الوقت. اعتمد على حدسك."

/-- The hint prompt built by `generateHint` from the history and the
current scene. -/
def hintPrompt (history : List Turn) (currentScene : StoryScene) : String :=
  "أنت مرشد حكيم وغامض في لعبة تحقيق تفاعلية. اللاعب يواجه الآن خيارًا صعبًا.\n        \n        ملخص القصة حتى الآن:\n        "
    ++ formatStoryHistory history
    ++ "\n\n        المشهد الحالي الذي يراه اللاعب:\n        \""
    ++ currentScene.scene
    ++ "\"\n\n        الخيارات المتاحة للاعب:\n        - "
    ++ joinSep "\n- " currentScene.choices
    ++ "\n\n        مهمتك هي تقديم تلميح واحد قصير وغامض باللغة العربية لمساعدة اللاعب. **لا تكشف عن الإجابة الصحيحة أو النتيجة المباشرة لأي خيار.** يجب أن يكون التلميح دقيقًا ومثيرًا للتفكير.\n        أمثلة على التلميحات الجيدة: \"أحيانًا، الغرف الهادئة تحمل الأسرار الأعلى صوتًا.\" أو \"النهج المباشر ليس دائمًا أسرع طريق للحقيقة.\""

/-- The source's `generateHint`, with the awaited external call replaced by
its outcome `resp`: `none` models any failure (the catch branch), `some t`
the reply text to `hintPrompt history currentScene` (trimmed on return). -/
def generateHint (history : List Turn) (currentScene : StoryScene)
    (resp : Option String) : String :=
  match resp with
  | some text => text.trim
  | none => hintFallbackMsg

/-- Validator contract taken from the spec's words (§4.4 / claim C5), for
comparison with the code's `sceneAccepted`: narrative text, choices array
and ending boolean all present and correctly typed. -/
def specTypedValid (j : JsonValue) : Bool :=
  (match jsGet j "scene" with | some (JsonValue.str _) => true | _ => false)
    && (match jsGet j "choices" with | some (JsonValue.arr _) => true | _ => false)
    && (match jsGet j "isEnding" with | some (JsonValue.bool _) => true | _ => false)

/-- The App component's game-relevant state (the `useState` hooks of
App.tsx; presentation-only state — settings panel, volumes, audio element
refs — is out of scope per the spec and omitted). -/
structure AppState where
  gameState : GameState
  currentScene : Option StoryScene
  storyHistory : List Turn
  isLoading : Bool
  hint : Option String
  isHintLoading : Bool
  isHintUsed : Bool
deriving DecidableEq

/-- The initial state of the component (the `useState` initial values). -/
def initState : AppState :=
  { gameState := GameState.Start, currentScene := none, storyHistory := [],
    isLoading := false, hint := none, isHintLoading := false, isHintUsed := false }

/-- The synchronous prefix of `fetchScene` (before the `await`):
`setIsLoading(true); setCurrentScene(null); setHint(null); setIsHintUsed(false)`. -/
def fetchSceneStart (s : AppState) : AppState :=
  { s with isLoading := true, currentScene := none, hint := none, isHintUsed := false }

/-- The continuation of `fetchScene` once `generateStoryScene` resolves
with `newScene`: set the scene, move to `End` when `newScene.isEnding`
else to `Playing`, and clear the loading flag (the `finally` block). -/
def resolveScene (s : AppState) (newScene : StoryScene) : AppState :=
  { s with currentScene := some newScene,
           gameState := if newScene.isEnding then GameState.End else GameState.Playing,
           isLoading := false }

/-- `handleStartGame`: clear the history and issue a scene request with the
empty history. The second component is the request issued (its history
argument), `none` when no request is issued. -/
def handleStartGame (s : AppState) : AppState × Option (List Turn) :=
  (fetchSceneStart { s with storyHistory := [] }, some [])

/-- `handleResetGame`: back to `Start`, clearing scene, history and hint
state (the loading flags are not touched by the source). -/
def handleResetGame (s : AppState) : AppState :=
  { s with gameState := GameState.Start, currentScene := none, storyHistory := [],
           hint := none, isHintUsed := false }

/-- `handleChoice(choice)`: guarded by `if (!currentScene || isLoading) return`;
otherwise append the turn to the history and issue a scene request with the
updated history. The second component is the request issued, if any. -/
def handleChoice (s : AppState) (choice : String) : AppState × Option (List Turn) :=
  match s.currentScene, s.isLoading with
  | none, _ => (s, none)
  | some _, true => (s, none)
  | some cur, false =>
      (fetchSceneStart
        { s with storyHistory := s.storyHistory ++ [{ scene := cur.scene, choice := choice }] },
       some (s.storyHistory ++ [{ scene := cur.scene, choice := choice }]))

/-- The synchronous prefix of `handleGetHint`: guarded by
`if (!currentScene || isHintUsed || isHintLoading) return`; otherwise mark
the hint used and loading before the asynchronous call. The second
component is the hint request issued (history and current scene), if any. -/
def handleGetHint (s : AppState) : AppState × Option (List Turn × StoryScene) :=
  match s.currentScene with
  | none => (s, none)
  | some cur =>
      if s.isHintUsed || s.isHintLoading then (s, none)
      else ({ s with isHintLoading := true, isHintUsed := true },
            some (s.storyHistory, cur))

/-- The continuation of `handleGetHint` once `generateHint` resolves with
`newHint`: store the hint and clear the hint-loading flag (the `finally`
block). `generateHint` never rejects, so the handler's catch is dead code. -/
def resolveHint (s : AppState) (newHint : String) : AppState :=
  { s with hint := some newHint, isHintLoading := false }

/-- States reachable from the initial render by the UI handlers and by the
resolution of pending asynchronous calls (in any interleaving). -/
inductive Reachable : AppState → Prop
  | init : Reachable initState
  | startGame (s : AppState) : Reachable s → Reachable (handleStartGame s).1
  | choice (s : AppState) (c : String) : Reachable s → Reachable (handleChoice s c).1
  | reset (s : AppState) : Reachable s → Reachable (handleResetGame s)
  | getHint (s : AppState) : Reachable s → Reachable (handleGetHint s).1
  | hintDone (s : AppState) (t : String) : Reachable s → Reachable (resolveHint s t)
  | sceneDone (s : AppState) (sc : StoryScene) : Reachable s → Reachable (resolveScene s sc)

/-- `embedsInOrder parts s` holds when every string of `parts` occurs in
`s`, pairwise disjointly and in the given order. -/
def embedsInOrder : List String → String → Prop
  | [], _ => True
  | p :: ps, s => ∃ pre rest, s = pre ++ p ++ rest ∧ embedsInOrder ps rest

/-- A non-ending scene with three choices, used as a concrete input. -/
def cSceneA : StoryScene :=
  { scene := "X", choices := ["A", "B", "C"], isEnding := false, sceneType := none }

/-- An ending scene offering one choice, used as a concrete input. -/
def cEndScene : StoryScene :=
  { scene := "Y", choices := ["A"], isEnding := true, sceneType := none }

/-- A mid-game state: phase `Playing`, a current scene, nothing pending. -/
def cPlayState : AppState :=
  { gameState := GameState.Playing, currentScene := some cSceneA, storyHistory := [],
    isLoading := false, hint := none, isHintLoading := false, isHintUsed := false }

/-- A finished-game state: phase `End` with the ending scene still current
and no request in flight (the state `fetchScene` leaves after resolving an
ending scene). -/
def cEndState : AppState :=
  { gameState := GameState.End, currentScene := some cEndScene, storyHistory := [],
    isLoading := false, hint := none, isHintLoading := false, isHintUsed := false }

/-- A parsed response whose three fields are present and correctly typed
but whose narrative is the empty string (falsy in JavaScript). -/
def jEmptyNarrative : JsonValue :=
  JsonValue.obj [("scene", JsonValue.str ""),
                 ("choices", JsonValue.arr [JsonValue.str "A"]),
                 ("isEnding", JsonValue.bool false)]

/-- A parsed response whose three fields are present and truthy but all of
the wrong type. -/
def jWrongTyped : JsonValue :=
  JsonValue.obj [("scene", JsonValue.num 5),
                 ("choices", JsonValue.str "not an array"),
                 ("isEnding", JsonValue.str "yes")]

theorem handleChoice_noop_of_none (s : AppState) (c : String)
    (h : s.currentScene = none) : handleChoice s c = (s, none) := by
  simp [handleChoice, h]

theorem handleChoice_noop_of_loading (s : AppState) (c : String)
    (h : s.isLoading = true) : handleChoice s c = (s, none) := by
  cases hcs : s.currentScene with
  | none => simp [handleChoice, hcs]
  | some cur => simp [handleChoice, hcs, h]

theorem handleChoice_accept (s : AppState) (c : String) (cur : StoryScene)
    (h1 : s.currentScene = some cur) (h2 : s.isLoading = false) :
    handleChoice s c =
      (fetchSceneStart
        { s with storyHistory := s.storyHistory ++ [{ scene := cur.scene, choice := c }] },
       some (s.storyHistory ++ [{ scene := cur.scene, choice := c }])) := by
  simp [handleChoice, h1, h2]

theorem handleGetHint_noop_of_none (s : AppState)
    (h : s.currentScene = none) : handleGetHint s = (s, none) := by
  simp [handleGetHint, h]

theorem handleGetHint_noop_of_used (s : AppState)
    (h : s.isHintUsed = true) : handleGetHint s = (s, none) := by
  cases hcs : s.currentScene with
  | none => simp [handleGetHint, hcs]
  | some cur => simp [handleGetHint, hcs, h]

theorem handleGetHint_noop_of_pending (s : AppState)
    (h : s.isHintLoading = true) : handleGetHint s = (s, none) := by
  cases hcs : s.currentScene with
  | none => simp [handleGetHint, hcs]
  | some cur => simp [handleGetHint, hcs, h]

theorem handleGetHint_issue (s : AppState) (cur : StoryScene)
    (h1 : s.currentScene = some cur) (h2 : s.isHintUsed = false)
    (h3 : s.isHintLoading = false) :
    handleGetHint s =
      ({ s with isHintLoading := true, isHintUsed := true },
       some (s.storyHistory, cur)) := by
  simp [handleGetHint, h1, h2, h3]

theorem reachable_start_no_scene (s : AppState) (hr : Reachable s) :
    s.gameState = GameState.Start → s.currentScene = none := by
  induction hr with
  | init => intro _; rfl
  | startGame s hr ih => intro _; rfl
  | choice s c hr ih =>
      cases hcs : s.currentScene with
      | none => rw [handleChoice_noop_of_none s c hcs]; intro _; exact hcs
      | some cur =>
          cases hl : s.isLoading with
          | true => rw [handleChoice_noop_of_loading s c hl]; exact ih
          | false => rw [handleChoice_accept s c cur hcs hl]; intro _; rfl
  | reset s hr ih => intro _; rfl
  | getHint s hr ih =>
      cases hcs : s.currentScene with
      | none => rw [handleGetHint_noop_of_none s hcs]; intro _; exact hcs
      | some cur =>
          cases hu : s.isHintUsed with
          | true => rw [handleGetHint_noop_of_used s hu]; exact ih
          | false =>
              cases hp : s.isHintLoading with
              | true => rw [handleGetHint_noop_of_pending s hp]; exact ih
              | false =>
                  rw [handleGetHint_issue s cur hcs hu hp]
                  intro hg
                  exact absurd (ih hg) (by simp [hcs])
  | hintDone s t hr ih => intro hg; exact ih hg
  | sceneDone s sc hr ih =>
      intro hg
      exact absurd hg (by cases he : sc.isEnding <;> simp [resolveScene, he])

theorem embedsInOrder_joinSep (sep : String) :
    ∀ (parts : List String) (pre post : String),
      embedsInOrder parts (pre ++ joinSep sep parts ++ post)
  | [], _, _ => trivial
  | [p], pre, post => ⟨pre, post, rfl, trivial⟩
  | p :: q :: ps, pre, post =>
      ⟨pre, sep ++ joinSep sep (q :: ps) ++ post,
        by simp [joinSep, String.append_assoc],
        embedsInOrder_joinSep sep (q :: ps) sep post⟩

theorem scenePrompt_cons (x : Turn) (xs : List Turn) :
    scenePrompt (x :: xs)
      = contBefore ++ joinSep "\n\n" (mapWithIndex serializeTurn 0 (x :: xs)) ++ contAfter := rfl

theorem sceneAccepted_typed_obj (n : String) (cs : List JsonValue) (b : Bool) :
    sceneAccepted (JsonValue.obj [("scene", JsonValue.str n),
        ("choices", JsonValue.arr cs), ("isEnding", JsonValue.bool b)])
      = !(n == "") := by
  show ((!(n == "") && true) && true) = !(n == "")
  cases n == "" <;> rfl

/-- C1: for every history, a transport or parsing failure (`resp = none`) and
a response failing the structure check both make `generateStoryScene` return
the fixed fallback scene — an ending scene whose choice list is the non-empty
single "start over" choice, tagged tone negative — and the failure is never
propagated (the modelled call is total). -/
theorem C1_fallback_on_failure (h : List Turn) (j : JsonValue) :
    generateStoryScene h none = SceneResult.fallback fallbackScene
    ∧ (sceneAccepted j = false →
        generateStoryScene h (some j) = SceneResult.fallback fallbackScene)
    ∧ fallbackScene.isEnding = true
    ∧ fallbackScene.choices = ["ابدأ من جديد"]
    ∧ fallbackScene.choices ≠ []
    ∧ fallbackScene.sceneType = some SceneTone.negative := by
  refine ⟨rfl, ?_, rfl, rfl, by decide, rfl⟩
  intro hj
  simp [generateStoryScene, hj]

/-- Witness for C1 at the empty history and the parsed response `null`. -/
theorem C1_witness :
    generateStoryScene [] (some JsonValue.null) = SceneResult.fallback fallbackScene :=
  (C1_fallback_on_failure [] JsonValue.null).2.1 rfl

/-- C2: whenever a scene request resolves with scene `S`, the current scene
becomes `S` and the phase becomes `End` exactly when `S.isEnding`, else
`Playing`; after `handleStartGame` the phase is still `Start` until the
request resolves, so an ending first scene moves `Start` directly to `End`. -/
theorem C2_scene_resolution (s : AppState) (S : StoryScene) :
    (resolveScene s S).currentScene = some S
    ∧ (resolveScene s S).gameState
        = (if S.isEnding then GameState.End else GameState.Playing)
    ∧ (s.gameState = GameState.Start → (handleStartGame s).1.gameState = GameState.Start)
    ∧ (S.isEnding = true → (resolveScene (handleStartGame s).1 S).gameState = GameState.End) := by
  refine ⟨rfl, rfl, ?_, ?_⟩
  · intro hs; exact hs
  · intro hE; simp [resolveScene, hE]

/-- Witness for C2 at the initial state and the (ending) fallback scene. -/
theorem C2_witness :
    (handleStartGame initState).1.gameState = GameState.Start
    ∧ (resolveScene (handleStartGame initState).1 fallbackScene).gameState = GameState.End :=
  ⟨(C2_scene_resolution initState fallbackScene).2.2.1 rfl,
   (C2_scene_resolution initState fallbackScene).2.2.2 rfl⟩

/-- C3 counterexample: `cEndState` — phase `End`, the ending scene still
current, no request in flight — is reachable, yet `handleChoice` there both
changes the state and issues a new request, so the claim that `chooseOption`
is a no-op in every non-`Playing` phase is false. -/
theorem C3_counterexample :
    Reachable cEndState
    ∧ cEndState.gameState = GameState.End
    ∧ cEndState.isLoading = false
    ∧ (handleChoice cEndState "A").2 ≠ none
    ∧ (handleChoice cEndState "A").1 ≠ cEndState := by
  refine ⟨?_, rfl, rfl, by decide, by decide⟩
  exact Reachable.sceneDone (handleStartGame initState).1 cEndScene
    (Reachable.startGame initState Reachable.init)

/-- C3 amended: `handleChoice` is a no-op (unchanged state, no request)
whenever a scene request is in flight or no current scene is present; since
every reachable `Start`-phase state has no current scene, it is a no-op in
phase `Start` — but not, in general, in phase `End` (see the counterexample). -/
theorem C3_amended_no_op_guard (s : AppState) (c : String) :
    (s.isLoading = true → handleChoice s c = (s, none))
    ∧ (s.currentScene = none → handleChoice s c = (s, none))
    ∧ (Reachable s → s.gameState = GameState.Start → handleChoice s c = (s, none)) := by
  refine ⟨handleChoice_noop_of_loading s c, handleChoice_noop_of_none s c, ?_⟩
  intro hr hs
  exact handleChoice_noop_of_none s c (reachable_start_no_scene s hr hs)

/-- Witness for the amended C3: in-flight state, sceneless state, and the
reachable initial `Start` state. -/
theorem C3_amended_witness :
    handleChoice (fetchSceneStart cPlayState) "A" = (fetchSceneStart cPlayState, none)
    ∧ handleChoice initState "A" = (initState, none)
    ∧ handleChoice initState "B" = (initState, none) :=
  ⟨(C3_amended_no_op_guard (fetchSceneStart cPlayState) "A").1 rfl,
   (C3_amended_no_op_guard initState "A").2.1 rfl,
   (C3_amended_no_op_guard initState "B").2.2 Reachable.init rfl⟩

/-- C4 counterexample: a hint pending when a choice is made resolves only
after the scene request's synchronous hint reset; `setHint` then stores the
previous scene's stale hint text, and the new scene is set with that text
still present — so "the hint state is reset whenever a new scene is set"
fails on this reachable interleaving (hint requested, choice made, hint
resolves, scene resolves). -/
theorem C4_counterexample :
    Reachable (resolveScene
      (resolveHint (handleChoice (handleGetHint cPlayState).1 "A").1 "stale") cSceneA)
    ∧ (handleChoice (handleGetHint cPlayState).1 "A").1.hint = none
    ∧ (resolveScene
        (resolveHint (handleChoice (handleGetHint cPlayState).1 "A").1 "stale")
        cSceneA).currentScene = some cSceneA
    ∧ (resolveScene
        (resolveHint (handleChoice (handleGetHint cPlayState).1 "A").1 "stale")
        cSceneA).hint = some "stale"
    ∧ (resolveScene
        (resolveHint (handleChoice (handleGetHint cPlayState).1 "A").1 "stale")
        cSceneA).hint ≠ none := by
  refine ⟨?_, rfl, rfl, rfl, by decide⟩
  have h0 : Reachable cPlayState :=
    Reachable.sceneDone (handleStartGame initState).1 cSceneA
      (Reachable.startGame initState Reachable.init)
  exact Reachable.sceneDone _ _
    (Reachable.hintDone _ _ (Reachable.choice _ _ (Reachable.getHint _ h0)))

/-- C4 amended: an issued hint request marks the hint used synchronously, so
a second `handleGetHint` — while the first is pending or after it resolved —
changes nothing and issues nothing; the hint state (text and used flag) is
reset synchronously by every issued scene request, and is still reset when
the new scene is set provided no hint resolution intervenes; if a hint was
still pending when the scene request was issued, its late resolution
re-stores the previous scene's stale text (surviving scene resolution),
while the used flag stays reset. -/
theorem C4_amended_hint_once (s : AppState) (t c : String) (sc : StoryScene) :
    ((handleGetHint s).2.isSome = true → (handleGetHint s).1.isHintUsed = true)
    ∧ (s.isHintUsed = true → handleGetHint s = (s, none))
    ∧ ((handleGetHint s).2.isSome = true →
        handleGetHint (handleGetHint s).1 = ((handleGetHint s).1, none))
    ∧ ((handleGetHint s).2.isSome = true →
        handleGetHint (resolveHint (handleGetHint s).1 t)
          = (resolveHint (handleGetHint s).1 t, none))
    ∧ ((handleChoice s c).2.isSome = true →
        (handleChoice s c).1.hint = none ∧ (handleChoice s c).1.isHintUsed = false)
    ∧ ((handleStartGame s).1.hint = none ∧ (handleStartGame s).1.isHintUsed = false)
    ∧ ((resolveScene (fetchSceneStart s) sc).hint = none
        ∧ (resolveScene (fetchSceneStart s) sc).isHintUsed = false)
    ∧ ((resolveHint (fetchSceneStart s) t).hint = some t
        ∧ (resolveHint (fetchSceneStart s) t).isHintUsed = false
        ∧ (resolveScene (resolveHint (fetchSceneStart s) t) sc).hint = some t
        ∧ (resolveScene (resolveHint (fetchSceneStart s) t) sc).isHintUsed = false) := by
  refine ⟨?_, handleGetHint_noop_of_used s, ?_, ?_, ?_, ⟨rfl, rfl⟩, ⟨rfl, rfl⟩,
    ⟨rfl, rfl, rfl, rfl⟩⟩
  · intro hi
    cases hcs : s.currentScene with
    | none => rw [handleGetHint_noop_of_none s hcs] at hi; simp at hi
    | some cur =>
        cases hu : s.isHintUsed with
        | true => rw [handleGetHint_noop_of_used s hu] at hi; simp at hi
        | false =>
            cases hp : s.isHintLoading with
            | true => rw [handleGetHint_noop_of_pending s hp] at hi; simp at hi
            | false => rw [handleGetHint_issue s cur hcs hu hp]
  · intro hi
    cases hcs : s.currentScene with
    | none => rw [handleGetHint_noop_of_none s hcs] at hi; simp at hi
    | some cur =>
        cases hu : s.isHintUsed with
        | true => rw [handleGetHint_noop_of_used s hu] at hi; simp at hi
        | false =>
            cases hp : s.isHintLoading with
            | true => rw [handleGetHint_noop_of_pending s hp] at hi; simp at hi
            | false =>
                rw [handleGetHint_issue s cur hcs hu hp]
                exact handleGetHint_noop_of_used _ rfl
  · intro hi
    cases hcs : s.currentScene with
    | none => rw [handleGetHint_noop_of_none s hcs] at hi; simp at hi
    | some cur =>
        cases hu : s.isHintUsed with
        | true => rw [handleGetHint_noop_of_used s hu] at hi; simp at hi
        | false =>
            cases hp : s.isHintLoading with
            | true => rw [handleGetHint_noop_of_pending s hp] at hi; simp at hi
            | false =>
                rw [handleGetHint_issue s cur hcs hu hp]
                exact handleGetHint_noop_of_used _ rfl
  · intro hi
    cases hcs : s.currentScene with
    | none => rw [handleChoice_noop_of_none s c hcs] at hi; simp at hi
    | some cur =>
        cases hl : s.isLoading with
        | true => rw [handleChoice_noop_of_loading s c hl] at hi; simp at hi
        | false => rw [handleChoice_accept s c cur hcs hl]; exact ⟨rfl, rfl⟩

/-- Witness for the amended C4 at the mid-game state `cPlayState`. -/
theorem C4_amended_witness :
    (handleGetHint cPlayState).1.isHintUsed = true
    ∧ handleGetHint (handleGetHint cPlayState).1 = ((handleGetHint cPlayState).1, none)
    ∧ handleGetHint (resolveHint (handleGetHint cPlayState).1 "hint")
        = (resolveHint (handleGetHint cPlayState).1 "hint", none)
    ∧ ((handleChoice cPlayState "A").1.hint = none
        ∧ (handleChoice cPlayState "A").1.isHintUsed = false) :=
  ⟨(C4_amended_hint_once cPlayState "hint" "A" cSceneA).1 rfl,
   (C4_amended_hint_once cPlayState "hint" "A" cSceneA).2.2.1 rfl,
   (C4_amended_hint_once cPlayState "hint" "A" cSceneA).2.2.2.1 rfl,
   (C4_amended_hint_once cPlayState "hint" "A" cSceneA).2.2.2.2.1 rfl⟩

/-- C5 counterexample: `jEmptyNarrative` has all three fields present and
correctly typed yet is rejected (empty narrative is falsy), while
`jWrongTyped` has all three fields wrongly typed yet is accepted — so
acceptance is not equivalent to "present and correctly typed". -/
theorem C5_counterexample :
    specTypedValid jEmptyNarrative = true
    ∧ sceneAccepted jEmptyNarrative = false
    ∧ generateStoryScene [] (some jEmptyNarrative) = SceneResult.fallback fallbackScene
    ∧ specTypedValid jWrongTyped = false
    ∧ sceneAccepted jWrongTyped = true
    ∧ generateStoryScene [] (some jWrongTyped) = SceneResult.accepted jWrongTyped :=
  ⟨rfl, rfl, rfl, rfl, rfl, rfl⟩

/-- C5 amended: the validator accepts a parsed response exactly when the
structure check passes — scene field truthy, choices field truthy, isEnding
field present (JavaScript truthiness, not type checking) — returning the
parsed object itself; any rejected or failed response yields the fallback
scene. Correctly-typed responses with a non-empty narrative are accepted,
but a present, correctly-typed empty narrative string is rejected. -/
theorem C5_amended_truthiness_validator (hist : List Turn) (j : JsonValue)
    (n : String) (cs : List JsonValue) (b : Bool) :
    (generateStoryScene hist (some j) = SceneResult.accepted j ↔ sceneAccepted j = true)
    ∧ (sceneAccepted j = false →
        generateStoryScene hist (some j) = SceneResult.fallback fallbackScene)
    ∧ generateStoryScene hist none = SceneResult.fallback fallbackScene
    ∧ (n ≠ "" → sceneAccepted (JsonValue.obj [("scene", JsonValue.str n),
        ("choices", JsonValue.arr cs), ("isEnding", JsonValue.bool b)]) = true)
    ∧ sceneAccepted (JsonValue.obj [("scene", JsonValue.str ""),
        ("choices", JsonValue.arr cs), ("isEnding", JsonValue.bool b)]) = false := by
  refine ⟨?_, ?_, rfl, ?_, ?_⟩
  · cases hac : sceneAccepted j with
    | true => simp [generateStoryScene, hac]
    | false => simp [generateStoryScene, hac]
  · intro hac; simp [generateStoryScene, hac]
  · intro hn
    cases hb : n == "" with
    | true => exact absurd (eq_of_beq hb) hn
    | false => rw [sceneAccepted_typed_obj, hb]; rfl
  · rw [sceneAccepted_typed_obj]; rfl

/-- Witness for the amended C5: rejection of `null` falls back; a typed
response with non-empty narrative is accepted by the check. -/
theorem C5_amended_witness :
    generateStoryScene [] (some JsonValue.null) = SceneResult.fallback fallbackScene
    ∧ sceneAccepted (JsonValue.obj [("scene", JsonValue.str "X"),
        ("choices", JsonValue.arr []), ("isEnding", JsonValue.bool true)]) = true :=
  ⟨(C5_amended_truthiness_validator [] JsonValue.null "X" [] true).2.1 rfl,
   (C5_amended_truthiness_validator [] JsonValue.null "X" [] true).2.2.2.1 (by decide)⟩

set_option maxRecDepth 8192 in
/-- C6: the prompt is a pure function of the history that embeds every turn,
serialized by `serializeTurn` (scene number from 1, narrative, then the
choice made), in insertion order; the empty history yields exactly the
distinguished opening prompt — which asks for 3 choices and forbids ending —
and not the continuation form. -/
theorem C6_prompt_formatting (h : List Turn) :
    embedsInOrder (mapWithIndex serializeTurn 0 h) (scenePrompt h)
    ∧ scenePrompt [] = openingPrompt
    ∧ scenePrompt [] ≠ contBefore ++ formatStoryHistory [] ++ contAfter
    ∧ embedsInOrder ["3 خيارات", "لا تنهِ القصة"] openingPrompt := by
  refine ⟨?_, rfl, by decide, ?_⟩
  · cases h with
    | nil => trivial
    | cons x xs =>
        rw [scenePrompt_cons]
        exact embedsInOrder_joinSep "\n\n" (mapWithIndex serializeTurn 0 (x :: xs))
          contBefore contAfter
  · exact ⟨"أنت كاتب قصص بوليسية تفاعلية. ابدأ قصة قصيرة وغامضة باللغة العربية على طراز المحقق كونان. يجب أن تضع اللاعب في موقف يتطلب منه اتخاذ قرار. قدم وصفاً للمشهد، ثم قدم ",
      " مختلفة يمكن للاعب اتخاذها. يجب أن تكون القصة مشوقة. لا تنهِ القصة في هذه المرحلة.",
      by decide,
      " مختلفة يمكن للاعب اتخاذها. يجب أن تكون القصة مشوقة. ",
      " في هذه المرحلة.",
      by decide, trivial⟩

/-- C7: an accepted `handleChoice` appends exactly one turn, built from the
current scene's narrative and the chosen text, at the end of the history
(and issues the request with that updated history); a rejected one leaves
the history unchanged, as do scene resolution, hint request and hint
resolution; only reset and a new game replace the history (with the empty
one). -/
theorem C7_history_append_only (s : AppState) (c t : String) (sc : StoryScene) :
    (∀ cur, s.currentScene = some cur → s.isLoading = false →
        (handleChoice s c).1.storyHistory
            = s.storyHistory ++ [{ scene := cur.scene, choice := c }]
          ∧ (handleChoice s c).2
            = some (s.storyHistory ++ [{ scene := cur.scene, choice := c }]))
    ∧ ((handleChoice s c).2 = none → (handleChoice s c).1.storyHistory = s.storyHistory)
    ∧ (resolveScene s sc).storyHistory = s.storyHistory
    ∧ (handleGetHint s).1.storyHistory = s.storyHistory
    ∧ (resolveHint s t).storyHistory = s.storyHistory
    ∧ (handleResetGame s).storyHistory = []
    ∧ (handleStartGame s).1.storyHistory = [] := by
  refine ⟨?_, ?_, rfl, ?_, rfl, rfl, rfl⟩
  · intro cur h1 h2
    rw [handleChoice_accept s c cur h1 h2]
    exact ⟨rfl, rfl⟩
  · intro hn
    cases hcs : s.currentScene with
    | none => rw [handleChoice_noop_of_none s c hcs]
    | some cur =>
        cases hl : s.isLoading with
        | true => rw [handleChoice_noop_of_loading s c hl]
        | false =>
            rw [handleChoice_accept s c cur hcs hl] at hn
            simp at hn
  · cases hcs : s.currentScene with
    | none => rw [handleGetHint_noop_of_none s hcs]
    | some cur =>
        cases hu : s.isHintUsed with
        | true => rw [handleGetHint_noop_of_used s hu]
        | false =>
            cases hp : s.isHintLoading with
            | true => rw [handleGetHint_noop_of_pending s hp]
            | false => rw [handleGetHint_issue s cur hcs hu hp]

/-- Witness for C7 at the mid-game state (accepted choice) and the initial
state (rejected choice). -/
theorem C7_witness :
    (handleChoice cPlayState "A").1.storyHistory
        = cPlayState.storyHistory ++ [{ scene := cSceneA.scene, choice := "A" }]
    ∧ (handleChoice initState "A").1.storyHistory = initState.storyHistory :=
  ⟨((C7_history_append_only cPlayState "A" "t" cSceneA).1 cSceneA rfl rfl).1,
   (C7_history_append_only initState "A" "t" cSceneA).2.1 rfl⟩

/-- C8: from every prior state, `handleResetGame` returns the phase to
`Start`, empties the history, clears the current scene and clears the hint
state (text absent, used flag false). -/
theorem C8_reset_clears (s : AppState) :
    (handleResetGame s).gameState = GameState.Start
    ∧ (handleResetGame s).storyHistory = []
    ∧ (handleResetGame s).currentScene = none
    ∧ (handleResetGame s).hint = none
    ∧ (handleResetGame s).isHintUsed = false :=
  ⟨rfl, rfl, rfl, rfl, rfl⟩

/-- C9: `generateHint` is total — on any failure it returns the fixed
"no hint available" message, which hint resolution stores as the hint text;
resolving a hint clears the hint-loading flag and leaves the phase, scene,
history and scene-loading flag untouched, so play is never blocked. -/
theorem C9_hint_failure_fallback (h : List Turn) (sc : StoryScene)
    (s : AppState) (r : Option String) :
    generateHint h sc none = hintFallbackMsg
    ∧ (resolveHint s (generateHint h sc none)).hint = some hintFallbackMsg
    ∧ (resolveHint s (generateHint h sc r)).isHintLoading = false
    ∧ (resolveHint s (generateHint h sc r)).currentScene = s.currentScene
    ∧ (resolveHint s (generateHint h sc r)).gameState = s.gameState
    ∧ (resolveHint s (generateHint h sc r)).storyHistory = s.storyHistory
    ∧ (resolveHint s (generateHint h sc r)).isLoading = s.isLoading :=
  ⟨rfl, rfl, rfl, rfl, rfl, rfl, rfl⟩

/-- C10: every issued scene request (start or choice) clears the current
scene synchronously; while it is absent, `handleChoice` and `handleGetHint`
are no-ops by the absent-scene guard alone — whatever the loading flags —
and reset and hint resolution never make a scene appear. -/
theorem C10_scene_absent_while_pending (s : AppState) (c t : String) :
    (handleStartGame s).1.currentScene = none
    ∧ ((handleChoice s c).2.isSome = true → (handleChoice s c).1.currentScene = none)
    ∧ (s.currentScene = none → handleChoice s c = (s, none))
    ∧ (s.currentScene = none → handleGetHint s = (s, none))
    ∧ (handleResetGame s).currentScene = none
    ∧ (resolveHint s t).currentScene = s.currentScene := by
  refine ⟨rfl, ?_, handleChoice_noop_of_none s c, handleGetHint_noop_of_none s, rfl, rfl⟩
  intro hi
  cases hcs : s.currentScene with
  | none => rw [handleChoice_noop_of_none s c hcs] at hi; simp at hi
  | some cur =>
      cases hl : s.isLoading with
      | true => rw [handleChoice_noop_of_loading s c hl] at hi; simp at hi
      | false => rw [handleChoice_accept s c cur hcs hl]; rfl

/-- Witness for C10: the choice issued from the mid-game state clears the
scene, and in the resulting in-flight state (loading true, scene absent)
both handlers are no-ops. -/
theorem C10_witness :
    (handleChoice cPlayState "A").1.currentScene = none
    ∧ handleChoice (fetchSceneStart cPlayState) "A" = (fetchSceneStart cPlayState, none)
    ∧ handleGetHint (fetchSceneStart cPlayState) = (fetchSceneStart cPlayState, none) :=
  ⟨(C10_scene_absent_while_pending cPlayState "A" "t").2.1 rfl,
   (C10_scene_absent_while_pending (fetchSceneStart cPlayState) "A" "t").2.2.1 rfl,
   (C10_scene_absent_while_pending (fetchSceneStart cPlayState) "A" "t").2.2.2.1 rfl⟩
